import Mathlib

/-!
Shallow embedding of the PyOxidizer release helper (`release/src/main.rs`):
the line-streaming process executor (`run_cmd` in the source, `runCmd`
here), the scaffold lock-file generator `generate_new_project_cargo_lock`,
and the two public subcommands.
-/

namespace Release

/-- `isPrefixOfChars p l` is true when the char list `p` is a prefix of `l`. -/
def isPrefixOfChars : List Char → List Char → Bool
  | [], _ => true
  | _ :: _, [] => false
  | p :: ps, c :: cs => p == c && isPrefixOfChars ps cs

/-- `hasInfixChars pat l` is true when `pat` occurs contiguously inside `l`. -/
def hasInfixChars : List Char → List Char → Bool
  | pat, [] => pat.isEmpty
  | pat, c :: cs => isPrefixOfChars pat (c :: cs) || hasInfixChars pat cs

/-- Substring containment, as Rust's `str::contains` with a string pattern:
`containsSub hay pat` is true when `pat` occurs contiguously inside `hay`. -/
def containsSub (hay pat : String) : Bool :=
  hasInfixChars pat.data hay.data

/-- Suffix test, as Rust's `str::ends_with` with a string pattern. -/
def ends_with (s suffix : String) : Bool :=
  isPrefixOfChars suffix.data.reverse s.data.reverse

/-- Observable events of one executor call: reading a line from the child's
merged output stream, and waiting on process termination (`try_wait`). -/
inductive Event where
  | readLine (line : String) : Event
  | wait : Event
deriving DecidableEq

/-- State threaded through the executor's line loop: the
`found_ignore_string` flag, the lines printed so far (the sink), and the
event trace. -/
structure LoopState where
  found : Bool
  sink : List String
  trace : List Event
deriving DecidableEq

/-- One iteration of the `for line in reader.lines()` loop in `run_cmd`:
set `found_ignore_string` if the line contains any tolerated substring,
then `println!("{}: {}", package, line)` unconditionally. -/
def stepLine (package : String) (ignore_errors : List String)
    (st : LoopState) (line : String) : LoopState :=
  { found := st.found || ignore_errors.any (fun s => containsSub line s)
    sink := st.sink ++ [package ++ ": " ++ line]
    trace := st.trace ++ [Event.readLine line] }

/-- The whole read loop of the executor, over the list of output lines. -/
def runLoop (package : String) (ignore_errors : List String)
    (lines : List String) : LoopState :=
  lines.foldl (stepLine package ignore_errors) ⟨false, [], []⟩

deriving instance DecidableEq for Except

/-- Result of one executor call: the returned value or the `CommandFailed`
exit code, the sink output, and the event trace. -/
structure RunResult where
  result : Except Int Int
  sink : List String
  trace : List Event
deriving DecidableEq

/-- `run_cmd` from `release/src/main.rs`: stream the child's merged output
line by line, echo each line to the sink with the `package` label, record
whether any tolerated substring was seen, then wait for termination.
`status` is the child's exit code (`none` when it cannot be obtained, in
which case it is treated as `1`).  The call succeeds when the process
exited with status `0` or a tolerated substring was seen; otherwise it
fails carrying the exit code. -/
def runCmd (package : String) (ignore_errors : List String)
    (lines : List String) (status : Option Int) : RunResult :=
  let st := runLoop package ignore_errors lines
  let code := status.getD 1
  let res := if (status == some 0) || st.found then Except.ok code else Except.error code
  { result := res, sink := st.sink, trace := st.trace ++ [Event.wait] }

/-- A Package Record of the lock artifact; fields beyond name and version
are opaque to this system. -/
structure Package where
  name : String
  version : String
deriving DecidableEq

/-- The scaffold project's own synthetic package name
(`const PACKAGE_NAME` in `generate_new_project_cargo_lock`). -/
def PACKAGE_NAME : String := "placeholder_project"

/-- The sanitize step of `generate_new_project_cargo_lock`: keep every
package whose name differs from the placeholder name (the Rust
`drain(..).filter(|package| package.name.as_str() != PACKAGE_NAME)`). -/
def sanitize (packages : List Package) (placeholderName : String) : List Package :=
  packages.filter (fun p => p.name != placeholderName)

/-- The base dependency fragment for pyembed written into the scaffold
manifest (the first `format!` in `generate_new_project_cargo_lock`). -/
def pyembedBaseEntry (pyembed_version : String) : String :=
  "[dependencies.pyembed]\nversion = \"" ++ pyembed_version ++ "\"\ndefault-features = false\n"

/-- The path line appended to the fragment for pre-releases or forced path
mode. -/
def pyembedPathLine (pyembed_path : String) : String :=
  "path = \"" ++ pyembed_path ++ "\"\n"

/-- The full pyembed dependency fragment: the path override is appended
exactly when the resolved version ends with `-pre` or path mode is forced. -/
def pyembedEntry (pyembed_version pyembed_path : String) (pyembed_force_path : Bool) : String :=
  if ends_with pyembed_version "-pre" || pyembed_force_path then
    pyembedBaseEntry pyembed_version ++ pyembedPathLine pyembed_path
  else
    pyembedBaseEntry pyembed_version

/-- Header line of a Package Record block in the lock artifact. -/
def pkgHeaderChars : List Char := ['[', '[', 'p', 'a', 'c', 'k', 'a', 'g', 'e', ']', ']']

/-- Opener of the name line of a Package Record block. -/
def nameKeyChars : List Char := ['n', 'a', 'm', 'e', ' ', '=', ' ', '"']

/-- Opener of the version line of a Package Record block. -/
def versionKeyChars : List Char := ['v', 'e', 'r', 's', 'i', 'o', 'n', ' ', '=', ' ', '"']

/-- Modelled from the spec: the canonical text form of one Package Record
of the lock artifact (the source defers serialization to the external
cargo_lock crate, which is not part of this repository): a `[[package]]`
header followed by the quoted name and version lines. -/
def serializePackageChars (p : Package) : List Char :=
  pkgHeaderChars ++ '\n' :: ((nameKeyChars ++ p.name.data ++ ['"']) ++ '\n' ::
    ((versionKeyChars ++ p.version.data ++ ['"']) ++ '\n' :: []))

/-- Character stream of a whole serialized Package Record list. -/
def serializeChars : List Package → List Char
  | [] => []
  | p :: rest => serializePackageChars p ++ serializeChars rest

/-- Modelled from the spec: serialize a Package Record list to the lock
artifact's canonical text form. -/
def serializeLockfile (ps : List Package) : String :=
  String.mk (serializeChars ps)

/-- Split a character stream into lines at newline characters. -/
def splitLines : List Char → List (List Char)
  | [] => [[]]
  | c :: cs =>
    if c = '\n' then [] :: splitLines cs
    else (c :: (splitLines cs).headD []) :: (splitLines cs).tail

/-- Strip an expected opener from the front of a line. -/
def stripPrefixChars : List Char → List Char → Option (List Char)
  | [], cs => some cs
  | _ :: _, [] => none
  | p :: ps, c :: cs => if p = c then stripPrefixChars ps cs else none

/-- Parse a `key = "value"` line given the expected opener `key = "`. -/
def parseQuotedValue (opener line : List Char) : Option (List Char) :=
  match stripPrefixChars opener line with
  | none => none
  | some rest => if rest.getLast? = some '"' then some rest.dropLast else none

/-- Parse the Package Record blocks of a lock artifact, line by line,
skipping blank lines. -/
def parseEntries : List (List Char) → Option (List Package)
  | [] => some []
  | [] :: rest => parseEntries rest
  | (c :: cs) :: rest =>
    if c :: cs = pkgHeaderChars then
      match rest with
      | nameLine :: versionLine :: rest2 =>
        match parseQuotedValue nameKeyChars nameLine,
            parseQuotedValue versionKeyChars versionLine with
        | some n, some v =>
          (parseEntries rest2).map (fun ps => Package.mk (String.mk n) (String.mk v) :: ps)
        | _, _ => none
      | _ => none
    else none

/-- Modelled from the spec: parse the lock artifact's canonical text form
back into its ordered Package Record list. -/
def parseLockfile (text : String) : Option (List Package) :=
  parseEntries (splitLines text.data)

/-- Error taxonomy of the generation pipeline, after the spec's names. -/
inductive Err where
  | versionResolution : Err
  | scaffold : Err
  | lockTool : Err
  | fileErr : Err
deriving DecidableEq

/-- The model filesystem: a finite association of paths to file contents. -/
structure FS where
  files : List (String × String)
deriving DecidableEq

/-- Write a file, replacing any previous content at the same path. -/
def FS.write (fs : FS) (path content : String) : FS :=
  FS.mk ((fs.files.filter (fun kv => kv.1 != path)) ++ [(path, content)])

/-- Read a file, `none` when absent. -/
def FS.read (fs : FS) (path : String) : Option String :=
  List.lookup path fs.files

/-- `isUnder dir p` is true when `p` is the directory itself or sits below
it. -/
def isUnder (dir p : String) : Bool :=
  p == dir || isPrefixOfChars (dir ++ "/").data p.data

/-- Delete a directory and everything below it. -/
def FS.removeTree (fs : FS) (dir : String) : FS :=
  FS.mk (fs.files.filter (fun kv => !(isUnder dir kv.1)))

/-- Modelled from the spec: scoped acquisition of the temporary scaffold
directory with deletion guaranteed on every exit path (the source relies
on the external tempfile crate's scope-bound `TempDir`, which is not part
of this repository). -/
def withTempDir (tmp : String) (body : String → FS → Except Err String × FS)
    (fs : FS) : Except Err String × FS :=
  ((body tmp fs).1, (body tmp fs).2.removeTree tmp)

/-- Results of the external toolchain collaborators consumed by the
generator: the resolved pyembed manifest version (`cargo_toml` crate), the
manifest text written by `cargo init`, and the lock text produced by
`cargo generate-lockfile --offline` from a given manifest; `none` models
the collaborator failing. -/
structure CargoOracle where
  pyembedVersion : Option String
  initCargoToml : Option String
  lockfileText : String → Option String

/-- `generate_new_project_cargo_lock` from `release/src/main.rs`: inside a
scoped temporary directory, scaffold a placeholder project, resolve the
pyembed version, append the pyembed dependency fragment (with the path
override for pre-releases or forced path mode) and the extra template
fragment to the scaffold manifest, generate the lock file offline, parse
it, drop the placeholder package, and return the re-serialized lock text. -/
def generate_new_project_cargo_lock (repo_root : String) (pyembed_force_path : Bool)
    (tmp : String) (oracle : CargoOracle) (fs : FS) : Except Err String × FS :=
  withTempDir tmp (fun temp_dir fs0 =>
    let project_path := temp_dir ++ "/" ++ PACKAGE_NAME
    let cargo_toml_path := project_path ++ "/Cargo.toml"
    match oracle.pyembedVersion with
    | none => (Except.error Err.versionResolution, fs0)
    | some pyembed_version =>
      let entry := pyembedEntry pyembed_version (repo_root ++ "/pyembed") pyembed_force_path
      match oracle.initCargoToml with
      | none => (Except.error Err.scaffold, fs0)
      | some skeleton =>
        let fs1 := fs0.write cargo_toml_path skeleton
        match fs1.read cargo_toml_path,
            fs1.read (repo_root ++ "/pyoxidizer/src/templates/cargo-extra.toml.hbs") with
        | some manifest_data, some extra =>
          let manifest := manifest_data ++ entry ++ extra
          let fs2 := fs1.write cargo_toml_path manifest
          match oracle.lockfileText manifest with
          | none => (Except.error Err.lockTool, fs2)
          | some lock_text =>
            let fs3 := fs2.write (project_path ++ "/Cargo.lock") lock_text
            match parseLockfile lock_text with
            | none => (Except.error Err.fileErr, fs3)
            | some packages =>
              (Except.ok (serializeLockfile (sanitize packages PACKAGE_NAME)), fs3)
        | _, _ => (Except.error Err.fileErr, fs1)) fs

/-- The `generate-new-project-cargo-lock` subcommand: print the artifact
generated with the force-path flag set to false. -/
def command_generate_new_project_cargo_lock (repo_root tmp : String)
    (oracle : CargoOracle) (fs : FS) : Except Err String × FS :=
  generate_new_project_cargo_lock repo_root false tmp oracle fs

/-- The `synchronize-generated-files` subcommand: generate the artifact
with the force-path flag set to false, run the external documentation
generator (`sphinxOk` models its success), and persist the artifact under
`pyoxidizer/src/new-project-cargo.lock`. -/
def command_synchronize_generated_files (repo_root tmp : String) (oracle : CargoOracle)
    (sphinxOk : Bool) (fs : FS) : Except Err Unit × FS :=
  match generate_new_project_cargo_lock repo_root false tmp oracle fs with
  | (Except.error e, fs1) => (Except.error e, fs1)
  | (Except.ok cargo_lock, fs1) =>
    if sphinxOk then
      (Except.ok (),
       fs1.write (repo_root ++ "/pyoxidizer/src/new-project-cargo.lock") cargo_lock)
    else
      (Except.error Err.fileErr, fs1)

/-- Closed form of the executor's line loop, for any starting state. -/
theorem foldl_stepLine (package : String) (ignore_errors : List String)
    (lines : List String) (st : LoopState) :
    lines.foldl (stepLine package ignore_errors) st =
      ⟨st.found || lines.any (fun l => ignore_errors.any (fun s => containsSub l s)),
       st.sink ++ lines.map (fun l => package ++ ": " ++ l),
       st.trace ++ lines.map Event.readLine⟩ := by
  induction lines generalizing st with
  | nil => simp
  | cons l ls ih =>
    simp [List.foldl_cons, ih, stepLine, Bool.or_assoc]

/-- Closed form of `runLoop`. -/
theorem runLoop_eq (package : String) (ignore_errors : List String) (lines : List String) :
    runLoop package ignore_errors lines =
      ⟨lines.any (fun l => ignore_errors.any (fun s => containsSub l s)),
       lines.map (fun l => package ++ ": " ++ l),
       lines.map Event.readLine⟩ := by
  simp [runLoop, foldl_stepLine]

/-- The `found_ignore_string` flag is set exactly when some output line
contains some tolerated substring. -/
theorem runLoop_found_iff (package : String) (ignore_errors : List String)
    (lines : List String) :
    (runLoop package ignore_errors lines).found = true ↔
      ∃ l ∈ lines, ∃ s ∈ ignore_errors, containsSub l s = true := by
  simp [runLoop_eq, List.any_eq_true]

/-- C1: for every tolerated-substring set and child exit code: if any output
line contains a tolerated substring, the call returns success regardless of
the exit code; if no line matches and the exit code is nonzero, the call
fails carrying that exit code; an exit code of zero always succeeds. -/
theorem runCmd_tolerance_and_failure (package : String) (ignore_errors lines : List String)
    (status : Option Int) :
    ((∃ l ∈ lines, ∃ s ∈ ignore_errors, containsSub l s = true) →
        (runCmd package ignore_errors lines status).result = Except.ok (status.getD 1))
    ∧ ((∀ l ∈ lines, ∀ s ∈ ignore_errors, containsSub l s = false) →
        ∀ e : Int, status = some e → e ≠ 0 →
          (runCmd package ignore_errors lines status).result = Except.error e)
    ∧ (status = some 0 →
        (runCmd package ignore_errors lines status).result = Except.ok 0) := by
  refine ⟨?_, ?_, ?_⟩
  · intro h
    have hf : (runLoop package ignore_errors lines).found = true :=
      (runLoop_found_iff package ignore_errors lines).mpr h
    simp [runCmd, hf]
  · intro h e he hne
    subst he
    have hf : (runLoop package ignore_errors lines).found = false := by
      rw [← Bool.not_eq_true, runLoop_found_iff]
      push_neg
      intro l hl s hs
      simp [h l hl s hs]
    have hz : ((some e == some 0) : Bool) = false := by
      simp [hne]
    simp [runCmd, hf, hz]
  · intro h
    subst h
    simp [runCmd]

/-- C2: every output line is forwarded to the sink in order, prefixed with
the label, none dropped or duplicated, independently of the tolerated set
and the exit status. -/
theorem runCmd_sink_forwards_all_lines (package : String) (ignore_errors lines : List String)
    (status : Option Int) :
    (runCmd package ignore_errors lines status).sink
      = lines.map (fun l => package ++ ": " ++ l) := by
  simp [runCmd, runLoop_eq]

/-- C7: the wait on process termination happens strictly after all line
reads, and an unobtainable exit code is treated as `1` in both the success
value and the failure error. -/
theorem runCmd_wait_after_stream (package : String) (ignore_errors lines : List String)
    (status : Option Int) :
    (runCmd package ignore_errors lines status).trace
        = lines.map Event.readLine ++ [Event.wait]
    ∧ (status = none →
        (runCmd package ignore_errors lines status).result = Except.ok 1
        ∨ (runCmd package ignore_errors lines status).result = Except.error 1) := by
  constructor
  · simp [runCmd, runLoop_eq]
  · intro h
    subst h
    cases hf : (runLoop package ignore_errors lines).found
    · right
      simp [runCmd, hf]
    · left
      simp [runCmd, hf]

/-- C9: whenever the executor succeeds, the returned integer is the child's
actual exit code (`1` when unobtainable); in particular a success owed only
to a tolerated substring still returns the nonzero exit code. -/
theorem runCmd_success_returns_exit_code (package : String) (ignore_errors lines : List String)
    (status : Option Int) :
    (∀ n : Int, (runCmd package ignore_errors lines status).result = Except.ok n →
        n = status.getD 1)
    ∧ ((∃ l ∈ lines, ∃ s ∈ ignore_errors, containsSub l s = true) →
        (runCmd package ignore_errors lines status).result = Except.ok (status.getD 1)) := by
  constructor
  · intro n hn
    by_cases hc : ((status == some 0) || (runLoop package ignore_errors lines).found) = true
    · simp [runCmd, hc] at hn
      omega
    · simp [runCmd, hc] at hn
  · intro h
    have hf : (runLoop package ignore_errors lines).found = true :=
      (runLoop_found_iff package ignore_errors lines).mpr h
    simp [runCmd, hf]

/-- Witness for C1 at concrete inputs. -/
theorem runCmd_tolerance_and_failure_witness :
    (runCmd "pkg" ["known-issue"] ["a", "error: known-issue", "b"] (some 1)).result
        = Except.ok 1
    ∧ (runCmd "pkg" ["known-issue"] ["a", "b"] (some 1)).result = Except.error 1
    ∧ (runCmd "pkg" ["known-issue"] ["a"] (some 0)).result = Except.ok 0 :=
  ⟨(runCmd_tolerance_and_failure "pkg" ["known-issue"] ["a", "error: known-issue", "b"]
        (some 1)).1 (by decide),
   (runCmd_tolerance_and_failure "pkg" ["known-issue"] ["a", "b"] (some 1)).2.1
        (by decide) 1 rfl (by decide),
   (runCmd_tolerance_and_failure "pkg" ["known-issue"] ["a"] (some 0)).2.2 rfl⟩

/-- Witness for C7 at a concrete input with an unobtainable exit code. -/
theorem runCmd_wait_after_stream_witness :
    (runCmd "pkg" [] ["a"] none).result = Except.ok 1
    ∨ (runCmd "pkg" [] ["a"] none).result = Except.error 1 :=
  (runCmd_wait_after_stream "pkg" [] ["a"] none).2 rfl

/-- Witness for C9 at a concrete input: a tolerated nonzero exit returns
the actual code `3`. -/
theorem runCmd_success_returns_exit_code_witness :
    (3 : Int) = (some (3 : Int)).getD 1
    ∧ (runCmd "pkg" ["boom"] ["a boom b"] (some 3)).result
        = Except.ok ((some (3 : Int)).getD 1) :=
  ⟨(runCmd_success_returns_exit_code "pkg" ["boom"] ["a boom b"] (some 3)).1 3 (by decide),
   (runCmd_success_returns_exit_code "pkg" ["boom"] ["a boom b"] (some 3)).2 (by decide)⟩

/-- The path line is never empty, so appending it changes the fragment. -/
theorem append_pathLine_ne (v p : String) :
    pyembedBaseEntry v ++ pyembedPathLine p ≠ pyembedBaseEntry v := by
  intro h
  have h2 := congrArg String.length h
  have hq : ("path = \"" : String).length = 8 := by decide
  have hn : ("\"\n" : String).length = 2 := by decide
  rw [String.length_append, pyembedPathLine, String.length_append, String.length_append,
    hq, hn] at h2
  omega

/-- The fragment carries the path override exactly under the source's
condition: pre-release suffix or forced path mode. -/
theorem pyembedEntry_path_iff (v p : String) (f : Bool) :
    pyembedEntry v p f = pyembedBaseEntry v ++ pyembedPathLine p
      ↔ (ends_with v "-pre" = true ∨ f = true) := by
  by_cases hc : (ends_with v "-pre" || f) = true
  · unfold pyembedEntry
    rw [if_pos hc]
    exact iff_of_true rfl (by simpa using hc)
  · unfold pyembedEntry
    rw [if_neg hc]
    constructor
    · intro h
      exact absurd h.symm (append_pathLine_ne v p)
    · intro h
      exact absurd (by simpa using h : (ends_with v "-pre" || f) = true) hc

/-- The fragment is the bare base entry exactly when the condition fails. -/
theorem pyembedEntry_no_path_iff (v p : String) (f : Bool) :
    pyembedEntry v p f = pyembedBaseEntry v
      ↔ ¬(ends_with v "-pre" = true ∨ f = true) := by
  by_cases hc : (ends_with v "-pre" || f) = true
  · unfold pyembedEntry
    rw [if_pos hc]
    constructor
    · intro h
      exact absurd h (append_pathLine_ne v p)
    · intro h
      exact absurd (by simpa using hc : ends_with v "-pre" = true ∨ f = true) h
  · unfold pyembedEntry
    rw [if_neg hc]
    refine iff_of_true rfl ?_
    intro h
    exact hc (by simpa using h)

/-- C3: sanitization removes exactly the records named like the
placeholder, preserves the relative order of the rest, and leaves no
record with the placeholder name. -/
theorem sanitize_removes_exactly_placeholder (packages : List Package)
    (placeholderName : String) :
    (∀ p ∈ sanitize packages placeholderName, p.name ≠ placeholderName)
    ∧ (∀ p, p ∈ sanitize packages placeholderName
          ↔ p ∈ packages ∧ p.name ≠ placeholderName)
    ∧ List.Sublist (sanitize packages placeholderName) packages := by
  refine ⟨?_, ?_, List.filter_sublist packages⟩
  · intro p hp
    have h := (List.mem_filter.mp hp).2
    simpa using h
  · intro p
    rw [sanitize, List.mem_filter]
    simp

/-- Witness for C3 at a concrete record list. -/
theorem sanitize_removes_exactly_placeholder_witness :
    (Package.mk "foo" "1.0.0").name ≠ "placeholder_project" :=
  (sanitize_removes_exactly_placeholder
      [Package.mk "placeholder_project" "0.1.0", Package.mk "foo" "1.0.0"]
      "placeholder_project").1 (Package.mk "foo" "1.0.0") (by decide)

/-- C5: sanitization is idempotent, and on the spec's example list it
yields exactly the two non-placeholder records in order. -/
theorem sanitize_idempotent (packages : List Package) (placeholderName : String) :
    sanitize (sanitize packages placeholderName) placeholderName
        = sanitize packages placeholderName
    ∧ sanitize
        [Package.mk "placeholder_project" "0.1.0", Package.mk "foo" "0.1.0",
          Package.mk "bar" "0.1.0"] "placeholder_project"
      = [Package.mk "foo" "0.1.0", Package.mk "bar" "0.1.0"] := by
  constructor
  · apply List.filter_eq_self.mpr
    intro a ha
    exact (List.mem_filter.mp ha).2
  · decide

/-- C4: the dependency fragment includes the local path entry if and only
if the resolved version ends with the pre-release marker or path mode is
forced; in particular `1.2.3` unforced yields none, `1.2.3-pre` yields
one, and forcing yields one for every version. -/
theorem pyembed_path_override_decision (v p : String) (f : Bool) :
    (pyembedEntry v p f = pyembedBaseEntry v ++ pyembedPathLine p
        ↔ (ends_with v "-pre" = true ∨ f = true))
    ∧ (pyembedEntry v p f = pyembedBaseEntry v
        ↔ ¬(ends_with v "-pre" = true ∨ f = true))
    ∧ pyembedEntry "1.2.3" p false = pyembedBaseEntry "1.2.3"
    ∧ pyembedEntry "1.2.3-pre" p false
        = pyembedBaseEntry "1.2.3-pre" ++ pyembedPathLine p
    ∧ pyembedEntry v p true = pyembedBaseEntry v ++ pyembedPathLine p := by
  refine ⟨pyembedEntry_path_iff v p f, pyembedEntry_no_path_iff v p f, ?_, ?_, ?_⟩
  · exact (pyembedEntry_no_path_iff "1.2.3" p false).mpr (by decide)
  · exact (pyembedEntry_path_iff "1.2.3-pre" p false).mpr (by decide)
  · exact (pyembedEntry_path_iff v p true).mpr (Or.inr rfl)

example : pkgHeaderChars = "[[package]]".data := by decide

example : nameKeyChars = "name = \"".data := by decide

example : versionKeyChars = "version = \"".data := by decide

/-- Splitting a newline-free line followed by a newline peels off that
line. -/
theorem splitLines_append (a b : List Char) (h : ∀ c ∈ a, c ≠ '\n') :
    splitLines (a ++ '\n' :: b) = a :: splitLines b := by
  induction a with
  | nil => simp [splitLines]
  | cons c cs ih =>
    have hc : c ≠ '\n' := h c (List.mem_cons_self c cs)
    have ih2 := ih (fun x hx => h x (List.mem_cons_of_mem c hx))
    simp [splitLines, hc, ih2]

/-- Stripping an opener from a line that starts with it leaves the rest. -/
theorem stripPrefixChars_append (pre x : List Char) :
    stripPrefixChars pre (pre ++ x) = some x := by
  induction pre with
  | nil => rfl
  | cons p ps ih => simp [stripPrefixChars, ih]

/-- Parsing a quoted line built from an opener and a value recovers the
value. -/
theorem parseQuotedValue_roundtrip (opener value : List Char) :
    parseQuotedValue opener (opener ++ value ++ ['"']) = some value := by
  unfold parseQuotedValue
  rw [List.append_assoc, stripPrefixChars_append]
  simp [List.getLast?_concat, List.dropLast_concat]

/-- Parsing one well-formed Package Record block consumes its three lines. -/
theorem parseEntries_block (n v : List Char) (rest : List (List Char)) :
    parseEntries (pkgHeaderChars :: ((nameKeyChars ++ n ++ ['"'])
        :: ((versionKeyChars ++ v ++ ['"']) :: rest)))
      = (parseEntries rest).map (fun ps => Package.mk (String.mk n) (String.mk v) :: ps) := by
  have h1 : parseQuotedValue nameKeyChars (nameKeyChars ++ (n ++ ['"'])) = some n := by
    rw [← List.append_assoc]
    exact parseQuotedValue_roundtrip nameKeyChars n
  have h2 : parseQuotedValue versionKeyChars (versionKeyChars ++ (v ++ ['"'])) = some v := by
    rw [← List.append_assoc]
    exact parseQuotedValue_roundtrip versionKeyChars v
  rw [show pkgHeaderChars = '[' :: ['[', 'p', 'a', 'c', 'k', 'a', 'g', 'e', ']', ']'] from rfl]
  simp [parseEntries, pkgHeaderChars, h1, h2]

/-- Serialization followed by parsing recovers any record list whose names
and versions contain no newline characters. -/
theorem parse_serializeChars (ps : List Package)
    (h : ∀ p ∈ ps, '\n' ∉ p.name.data ∧ '\n' ∉ p.version.data) :
    parseEntries (splitLines (serializeChars ps)) = some ps := by
  induction ps with
  | nil => rfl
  | cons p ps ih =>
    have hp := h p (List.mem_cons_self p ps)
    have ihh := ih (fun q hq => h q (List.mem_cons_of_mem p hq))
    have hname : ∀ c ∈ nameKeyChars ++ p.name.data ++ ['"'], c ≠ '\n' := by
      intro c hc hceq
      subst hceq
      rcases List.mem_append.mp hc with hc2 | hc2
      · rcases List.mem_append.mp hc2 with hc3 | hc3
        · exact absurd hc3 (by decide)
        · exact hp.1 hc3
      · exact absurd hc2 (by decide)
    have hversion : ∀ c ∈ versionKeyChars ++ p.version.data ++ ['"'], c ≠ '\n' := by
      intro c hc hceq
      subst hceq
      rcases List.mem_append.mp hc with hc2 | hc2
      · rcases List.mem_append.mp hc2 with hc3 | hc3
        · exact absurd hc3 (by decide)
        · exact hp.2 hc3
      · exact absurd hc2 (by decide)
    rw [serializeChars,
      show serializePackageChars p ++ serializeChars ps
          = pkgHeaderChars ++ '\n' :: ((nameKeyChars ++ p.name.data ++ ['"']) ++ '\n' ::
              ((versionKeyChars ++ p.version.data ++ ['"']) ++ '\n' :: serializeChars ps))
        from by simp [serializePackageChars, List.append_assoc],
      splitLines_append _ _ (by decide), splitLines_append _ _ hname,
      splitLines_append _ _ hversion, parseEntries_block, ihh]
    rfl

/-- C6: serializing a sanitized Package Record list to the lock artifact's
canonical text form and re-parsing it yields the same list (same names,
versions, order), for records whose fields contain no newline. -/
theorem lockfile_roundtrip (packages : List Package) (placeholderName : String)
    (h : ∀ p ∈ sanitize packages placeholderName,
        '\n' ∉ p.name.data ∧ '\n' ∉ p.version.data) :
    parseLockfile (serializeLockfile (sanitize packages placeholderName))
      = some (sanitize packages placeholderName) :=
  parse_serializeChars (sanitize packages placeholderName) h

/-- Witness for C6 at a concrete sanitized list. -/
theorem lockfile_roundtrip_witness :
    parseLockfile (serializeLockfile (sanitize
        [Package.mk "placeholder_project" "0.1.0", Package.mk "foo" "1.0.0",
          Package.mk "bar" "2.0.0"] "placeholder_project"))
      = some (sanitize
        [Package.mk "placeholder_project" "0.1.0", Package.mk "foo" "1.0.0",
          Package.mk "bar" "2.0.0"] "placeholder_project") :=
  lockfile_roundtrip
    [Package.mk "placeholder_project" "0.1.0", Package.mk "foo" "1.0.0",
      Package.mk "bar" "2.0.0"] "placeholder_project" (by decide)

/-- Deleting a tree leaves no file under it. -/
theorem removeTree_all (fs : FS) (dir : String) :
    (fs.removeTree dir).files.all (fun kv => !(isUnder dir kv.1)) = true := by
  simp only [FS.removeTree, List.all_eq_true]
  intro kv hkv
  exact (List.mem_filter.mp hkv).2

/-- C8: on every exit path of the generator — success, early return, or
propagated failure — no file under the temporary scaffold directory
survives in the final filesystem. -/
theorem generate_deletes_temp_dir (repo_root : String) (pyembed_force_path : Bool)
    (tmp : String) (oracle : CargoOracle) (fs : FS) :
    ((generate_new_project_cargo_lock repo_root pyembed_force_path tmp oracle fs).2).files.all
        (fun kv => !(isUnder tmp kv.1)) = true :=
  removeTree_all _ tmp

/-- C10: both public subcommands drive the generator with the force-path
flag set to false, and with that flag false the scaffold manifest carries
the local path override exactly when the resolved version ends in `-pre`. -/
theorem commands_invoke_with_force_false (repo_root tmp v p : String)
    (oracle : CargoOracle) (sphinxOk : Bool) (fs : FS) :
    command_generate_new_project_cargo_lock repo_root tmp oracle fs
        = generate_new_project_cargo_lock repo_root false tmp oracle fs
    ∧ (∀ e, (generate_new_project_cargo_lock repo_root false tmp oracle fs).1
          = Except.error e →
        (command_synchronize_generated_files repo_root tmp oracle sphinxOk fs).1
          = Except.error e)
    ∧ (∀ s, (generate_new_project_cargo_lock repo_root false tmp oracle fs).1
          = Except.ok s →
        command_synchronize_generated_files repo_root tmp oracle true fs
          = (Except.ok (),
             ((generate_new_project_cargo_lock repo_root false tmp oracle fs).2).write
               (repo_root ++ "/pyoxidizer/src/new-project-cargo.lock") s))
    ∧ (pyembedEntry v p false = pyembedBaseEntry v ++ pyembedPathLine p
        ↔ ends_with v "-pre" = true) := by
  refine ⟨rfl, ?_, ?_, ?_⟩
  · intro e he
    unfold command_synchronize_generated_files
    have hpair : generate_new_project_cargo_lock repo_root false tmp oracle fs
        = (Except.error e,
           (generate_new_project_cargo_lock repo_root false tmp oracle fs).2) := by
      rw [← he]
    rw [hpair]
  · intro s hs
    unfold command_synchronize_generated_files
    have hpair : generate_new_project_cargo_lock repo_root false tmp oracle fs
        = (Except.ok s,
           (generate_new_project_cargo_lock repo_root false tmp oracle fs).2) := by
      rw [← hs]
    rw [hpair]
    rfl
  · simpa using pyembedEntry_path_iff v p false

/-- Witness for C10: a failed version resolution propagates through the
synchronize subcommand, and a fully concrete successful run persists the
sanitized artifact generated with the force-path flag false. -/
theorem commands_invoke_with_force_false_witness :
    (command_synchronize_generated_files "repo" "tmp"
        (CargoOracle.mk none none (fun _ => none)) true (FS.mk [])).1
      = Except.error Err.versionResolution
    ∧ command_synchronize_generated_files "repo" "tmp"
        (CargoOracle.mk (some "0.1.0") (some "")
          (fun _ => some (serializeLockfile
            [Package.mk "placeholder_project" "0.1.0", Package.mk "foo" "1.0.0"])))
        true
        (FS.mk [("repo/pyoxidizer/src/templates/cargo-extra.toml.hbs", "")])
      = (Except.ok (),
         ((generate_new_project_cargo_lock "repo" false "tmp"
            (CargoOracle.mk (some "0.1.0") (some "")
              (fun _ => some (serializeLockfile
                [Package.mk "placeholder_project" "0.1.0", Package.mk "foo" "1.0.0"])))
            (FS.mk [("repo/pyoxidizer/src/templates/cargo-extra.toml.hbs", "")])).2).write
           "repo/pyoxidizer/src/new-project-cargo.lock"
           (serializeLockfile [Package.mk "foo" "1.0.0"])) :=
  ⟨(commands_invoke_with_force_false "repo" "tmp" "1.2.3" "repo/pyembed"
      (CargoOracle.mk none none (fun _ => none)) true (FS.mk [])).2.1
      Err.versionResolution rfl,
   (commands_invoke_with_force_false "repo" "tmp" "1.2.3" "repo/pyembed"
      (CargoOracle.mk (some "0.1.0") (some "")
        (fun _ => some (serializeLockfile
          [Package.mk "placeholder_project" "0.1.0", Package.mk "foo" "1.0.0"])))
      true
      (FS.mk [("repo/pyoxidizer/src/templates/cargo-extra.toml.hbs", "")])).2.2.1
      (serializeLockfile [Package.mk "foo" "1.0.0"]) (by decide)⟩

example : containsSub "error: known-issue" "known-issue" = true := by decide

example : containsSub "abc" "zz" = false := by decide

example : ends_with "1.2.3-pre" "-pre" = true := by decide

example : ends_with "1.2.3" "-pre" = false := by decide

example :
    (runCmd "label" ["known-issue"] ["a", "error: known-issue", "b"] (some 1)).result
      = Except.ok 1 := by decide

example :
    (runCmd "label" ["known-issue"] ["a", "b"] (some 1)).result
      = Except.error 1 := by decide

example :
    (runCmd "label" ["known-issue"] ["a"] (some 1)).sink = ["label: a"] := by decide

end Release
